import Mathlib

/-!
Shallow embedding of the two orchestrator lambdas of the `services`
repository (`src/lambdas/orchestrators/LLMQueryAnalyzer/lambda_function.py`
and `src/lambdas/orchestrators/AnswerGenerator/lambda_function.py`).

Conventions of the embedding:
* Python dictionaries produced by `json.loads` and by the literal fallback
  constructors are modelled by the inductive type `Json`.
* The external LLM capability together with `json.loads` applied to its
  text is an environment input: `JsonCall.fail e` models the capability
  call raising, `JsonCall.malformed` models text that raises
  `json.JSONDecodeError`, `JsonCall.reply v` models text parsing to `v`.
  The plain-text calls use `LLMCall`.
* A DynamoDB `put_item` outcome is the environment input `PutResult`;
  a raised exception is an `Except.error` return value.
* Time is modelled in integer seconds (`Nat`); the two `datetime.now()`
  calls inside one store operation are modelled as one instant `now`.
-/

set_option autoImplicit false
set_option linter.unusedVariables false

/-- Values produced by `json.loads`: the standard JSON value tree.
Objects are association lists with pairwise distinct keys. -/
inductive Json where
  | null
  | bool (b : Bool)
  | num (n : Int)
  | str (s : String)
  | arr (elems : List Json)
  | obj (fields : List (String × Json))

/-- First value bound to key `k`, as Python dict lookup on an object whose
keys are distinct. -/
def lookupField : List (String × Json) → String → Option Json
  | [], _ => none
  | (k, v) :: rest, key => if k == key then some v else lookupField rest key

/-- Python `d[k]` on a parsed value: `none` models the raised `KeyError`
(for an object without the key) or `TypeError` (for a non-object). -/
def Json.getField : Json → String → Option Json
  | .obj fields, key => lookupField fields key
  | _, _ => none

/-- Python truthiness of a parsed JSON value (`if v:`). -/
def Json.truthy : Json → Bool
  | .null => false
  | .bool b => b
  | .num n => n != 0
  | .str s => s != ""
  | .arr elems => !elems.isEmpty
  | .obj fields => !fields.isEmpty

/-- Python `d.get(k, default)`: `AttributeError` on a non-dict receiver. -/
def dictGet (v : Json) (key : String) (dflt : Json) : Except String Json :=
  match v with
  | .obj fields => .ok ((lookupField fields key).getD dflt)
  | _ => .error "AttributeError: get on non-dict"

/-- Python `for x in v`: strings iterate over their characters and dicts
over their keys; `null`, booleans and numbers raise `TypeError`. -/
def iterElems : Json → Except String (List Json)
  | .arr elems => .ok elems
  | .str s => .ok (s.data.map fun c => .str (String.mk [c]))
  | .obj fields => .ok (fields.map fun kv => .str kv.1)
  | _ => .error "TypeError: not iterable"

/-- Outcome of one LLM capability call whose text is then given to
`json.loads`: the call raised, the text was not JSON, or it parsed. -/
inductive JsonCall where
  | fail (err : String)
  | malformed
  | reply (v : Json)

/-- Outcome of one LLM capability call used as plain text. -/
inductive LLMCall where
  | fail (err : String)
  | reply (content : String)

/-- Outcome of one DynamoDB `put_item` call. -/
inductive PutResult where
  | ok
  | fail (err : String)

/-- One item of the shared `ConversationMemory` DynamoDB table
(`UserId` hash key, `CorrelationId` range key, `timestamp`,
`ExpirationTime` TTL attribute, `question`, `answer`). -/
structure ConvItem where
  userId : String
  correlationId : String
  timestamp : Nat
  expirationTime : Nat
  question : String
  answer : String
deriving DecidableEq

/-- One entry of the history list both lambdas build from queried items. -/
structure HistEntry where
  question : String
  answer : String
  timestamp : Nat
deriving DecidableEq

/-- Projection of a table item to a history entry (the dict literal built
inside both `get_conversation_history` loops). -/
def histEntryOf (it : ConvItem) : HistEntry :=
  ⟨it.question, it.answer, it.timestamp⟩

/-- Insertion step of the sort used to model DynamoDB key ordering. -/
def insertBy {α : Type} (le : α → α → Bool) (a : α) : List α → List α
  | [] => [a]
  | b :: bs => if le a b then a :: b :: bs else b :: insertBy le a bs

/-- Insertion sort by a boolean relation, modelling the key order in which
DynamoDB `query` returns the items of one partition. -/
def sortBy {α : Type} (le : α → α → Bool) : List α → List α
  | [] => []
  | a :: as => insertBy le a (sortBy le as)

/-- Lexicographic at-most comparison of character lists by code point,
modelling the byte order DynamoDB uses on string range keys. -/
def charListLeB : List Char → List Char → Bool
  | [], _ => true
  | _ :: _, [] => false
  | a :: as, b :: bs =>
    if a.val < b.val then true else if b.val < a.val then false else charListLeB as bs

/-- String at-most comparison by code point. -/
def strLeB (a b : String) : Bool := charListLeB a.data b.data

/-- Python `str.strip()`: drops whitespace from both ends. -/
def pyStrip (s : String) : String :=
  String.mk (((s.data.dropWhile Char.isWhitespace).reverse.dropWhile Char.isWhitespace).reverse)

/-- DynamoDB `put_item`: replaces any item with the same (hash, range) key
pair. -/
def putItem (tbl : List ConvItem) (it : ConvItem) : List ConvItem :=
  it :: tbl.filter fun x => !(x.userId == it.userId && x.correlationId == it.correlationId)

/-- One message of a prompt sent to the LLM capability. -/
inductive PromptMsg where
  | system (content : String)
  | human (content : String)
deriving DecidableEq

/-- Shape of the value a lambda handler returns. -/
structure LambdaResponse where
  statusCode : Nat
  body : Json

/-- Apostrophe character, used to build the literal fallback strings. -/
def apos : String := String.mk [Char.ofNat 39]

namespace LLMQueryAnalyzer

/-- Fallback dict of `check_for_small_talk` when `json.loads` raises
(lambda_function.py lines 410-414). -/
def small_talk_parse_fallback : Json :=
  .obj [("isSmallTalk", .bool false), ("response", .str ""),
        ("explanation", .str "Failed to parse response")]

/-- Fallback dict of `check_for_small_talk` when the capability call
raises (lambda_function.py lines 419-423). -/
def small_talk_error_fallback (e : String) : Json :=
  .obj [("isSmallTalk", .bool false), ("response", .str ""),
        ("explanation", .str ("Error: " ++ e))]

/-- Result value of `check_for_small_talk`: the parsed LLM reply is
returned unchanged; only a `JSONDecodeError` or a raised capability call
routes to a fallback dict. -/
def check_for_small_talk (call : JsonCall) : Json :=
  match call with
  | .reply v => v
  | .malformed => small_talk_parse_fallback
  | .fail e => small_talk_error_fallback e

/-- Fallback dict of `analyze_query` when `json.loads` raises
(lambda_function.py lines 465-471); its keys are `dataSources`,
`operations`, `parameters`, `question_type`, `complexity`. -/
def analyze_parse_fallback : Json :=
  .obj [("dataSources", .arr [.str "unknown"]), ("operations", .arr [.str "retrieve"]),
        ("parameters", .obj []), ("question_type", .str "unknown"),
        ("complexity", .str "unknown")]

/-- Fallback dict of `analyze_query` when the capability call raises
(lambda_function.py lines 476-482). -/
def analyze_error_fallback : Json :=
  .obj [("dataSources", .arr [.str "error"]), ("operations", .arr [.str "retrieve"]),
        ("parameters", .obj []), ("question_type", .str "error"),
        ("complexity", .str "unknown")]

/-- Result value of `analyze_query`: the parsed LLM reply unchanged, or a
fallback dict on parse or capability failure. -/
def analyze_query (call : JsonCall) : Json :=
  match call with
  | .reply v => v
  | .malformed => analyze_parse_fallback
  | .fail e => analyze_error_fallback

/-- Prompt built by `check_for_small_talk` (lines 384-397): the source sets
`recent_history = None` (the `format_conversation_history_for_prompt` call
is commented out with a `#TEMP` marker), so the history branch is dead. -/
def small_talk_messages (system_message message : String)
    (conversation_history : List HistEntry) : List PromptMsg :=
  let recent_history : Option String := none
  match recent_history with
  | some h =>
      [.system system_message,
       .human ("Recent conversation: " ++ h ++ "\n\nCurrent message: " ++ message)]
  | none => [.system system_message, .human message]

/-- Prompt built by `analyze_query` (lines 441-454): `recent_history` is
likewise hard-coded to `None`. -/
def analyze_query_messages (system_message message : String)
    (conversation_history : List HistEntry) : List PromptMsg :=
  let recent_history : Option String := none
  match recent_history with
  | some h =>
      [.system system_message,
       .human ("Recent conversation: " ++ h ++ "\n\nCurrent query: " ++ message)]
  | none => [.system system_message, .human message]

/-- Fixed apology returned by `get_direct_answer` on any failure
(line 522). -/
def direct_answer_apology : String :=
  "I" ++ apos ++ "m sorry, I" ++ apos ++
    "m having trouble responding right now. Please try again later."

/-- Result of `get_direct_answer`: the LLM text, or the fixed apology when
the capability call raises. -/
def get_direct_answer (message : String) (conversation_history : List HistEntry)
    (call : LLMCall) : String :=
  match call with
  | .reply c => c
  | .fail _ => direct_answer_apology

/-- Formatting of history for prompts (lines 525-547): Python
`conversation_history[-limit:]` then `Student:`/`Assistant:` lines,
stripped. -/
def format_conversation_history_for_prompt (conversation_history : List HistEntry)
    (limit : Nat) : String :=
  if conversation_history.isEmpty then ""
  else
    let recent := conversation_history.drop (conversation_history.length - limit)
    pyStrip (recent.foldl (fun acc e =>
      acc ++ "Student: " ++ e.question ++ "\n" ++ "Assistant: " ++ e.answer ++ "\n\n") "")

/-- Read of `get_conversation_history` (lines 550-580): a `query` on the
base table (no `IndexName` despite the comment naming a GSI) with
`KeyConditionExpression UserId = :uid`, `ScanIndexForward=True` and
`Limit=10`, so DynamoDB returns the first 10 of the partition in ascending
range-key (`CorrelationId`) order; no filter on `ExpirationTime`; an
exception yields `[]`. `qfail` is the environment outcome of the call. -/
def get_conversation_history (tbl : List ConvItem) (user_id : String)
    (qfail : Bool) : List HistEntry :=
  if qfail then []
  else
    ((sortBy (fun a b => strLeB a.correlationId b.correlationId)
        (tbl.filter fun it => it.userId == user_id)).take 10).map histEntryOf

/-- Item written by `store_conversation_history` (lines 593-606):
`ExpirationTime` is 15 minutes after the write instant. -/
def mkConvItem (now : Nat) (user_id correlation_id question answer : String) : ConvItem :=
  ⟨user_id, correlation_id, now, now + 15 * 60, question, answer⟩

/-- Write of `store_conversation_history` (lines 583-613): on success the
item is put; a `put_item` exception is logged and RE-RAISED (`raise e`),
modelled by the `Except.error` return. -/
def store_conversation_history (now : Nat) (user_id correlation_id question answer : String)
    (put : PutResult) : Except String ConvItem :=
  match put with
  | .ok => .ok (mkConvItem now user_id correlation_id question answer)
  | .fail e => .error e

/-- Rendering of a parsed JSON value as the stored answer text: the
classifier's `response` field is a string in every honest run; the write
using it is discarded by the surrounding `try`/`except` either way. -/
def storedText : Json → String
  | .str s => s
  | _ => ""

/-- Environment of one `lambda_handler` invocation: the outcomes of the
two classification calls, the direct-answer call, the two conversation
writes, the history read, plus the table contents and the clock. -/
structure Env where
  smallTalkCall : JsonCall
  analyzeCall : JsonCall
  directCall : LLMCall
  putSmallTalk : PutResult
  putDirect : PutResult
  histReadFail : Bool
  table : List ConvItem
  now : Nat

/-- The 500 response built by the handler's top-level `except` clause. -/
def handlerError (e : String) : LambdaResponse :=
  ⟨500, .obj [("message", .str ("An error occurred: " ++ e)), ("status", .str "error")]⟩

/-- Control flow of `lambda_handler` (lines 177-306): parameter check,
history read, small-talk short circuit (store outcome swallowed by the
inner `try`), then query analysis deciding between the direct-answer path
(store outcome likewise swallowed) and the worker-dispatch path. The
subscript accesses `small_talk_response[...]` and the loop over
`requiredWorkers` can raise; those exceptions reach only the top-level
`except`, producing a 500 response. -/
def lambda_handler (env : Env) (correlation_id user_id message : String) : LambdaResponse :=
  if correlation_id == "" || user_id == "" || message == "" then
    ⟨400, .obj [("message", .str "Missing required parameters"), ("status", .str "error")]⟩
  else
    let conversation_history := get_conversation_history env.table user_id env.histReadFail
    let small_talk_response := check_for_small_talk env.smallTalkCall
    match small_talk_response.getField "isSmallTalk" with
    | none => handlerError "KeyError: isSmallTalk"
    | some flag =>
      if flag.truthy then
        match small_talk_response.getField "response" with
        | none => handlerError "KeyError: response"
        | some resp =>
          let _ := store_conversation_history env.now user_id correlation_id message
            (storedText resp) env.putSmallTalk
          ⟨200, .obj [("correlationId", .str correlation_id), ("message", resp),
                      ("requiresWorkers", .bool false), ("isSmallTalk", .bool true)]⟩
      else
        let query_analysis := analyze_query env.analyzeCall
        match dictGet query_analysis "requiredWorkers" (.arr []) with
        | .error e => handlerError e
        | .ok required_workers =>
          if !required_workers.truthy then
            let direct_response := get_direct_answer message conversation_history env.directCall
            let _ := store_conversation_history env.now user_id correlation_id message
              direct_response env.putDirect
            ⟨200, .obj [("correlationId", .str correlation_id),
                        ("message", .str direct_response), ("requiresWorkers", .bool false)]⟩
          else
            match iterElems required_workers with
            | .error e => handlerError e
            | .ok _ =>
              ⟨202, .obj [("correlationId", .str correlation_id),
                          ("message", .str "Query analysis complete, worker dispatcher invoked"),
                          ("analysis", query_analysis), ("requiresWorkers", .bool true)]⟩

end LLMQueryAnalyzer

namespace AnswerGenerator

/-- Formatting of history for prompts (lines 247-269), identical to the
LLMQueryAnalyzer version. -/
def format_conversation_history (conversation_history : List HistEntry)
    (limit : Nat) : String :=
  if conversation_history.isEmpty then ""
  else
    let recent := conversation_history.drop (conversation_history.length - limit)
    pyStrip (recent.foldl (fun acc e =>
      acc ++ "Student: " ++ e.question ++ "\n" ++ "Assistant: " ++ e.answer ++ "\n\n") "")

/-- Read of `get_conversation_history` (lines 272-310). Modelled from the
spec: the `UserConversationsIndex` GSI (declared in infrastructure code
outside `src/`) orders a user's conversation items by time — here their
`ExpirationTime` attribute, as the source comment states — so the query
with `ScanIndexForward=False` and `Limit=limit` returns the newest `limit`
items first; no filter on expiry; an exception yields `[]`. -/
def get_conversation_history (tbl : List ConvItem) (user_id : String)
    (limit : Nat) (qfail : Bool) : List HistEntry :=
  if qfail then []
  else
    ((sortBy (fun a b => decide (b.expirationTime ≤ a.expirationTime))
        (tbl.filter fun it => it.userId == user_id)).take limit).map histEntryOf

/-- Fixed text prepended to the error in the fallback string of
`generate_answer` (line 244). -/
def answer_error_text : String :=
  "I" ++ apos ++
    "m sorry, but I encountered an error while generating your answer. Please try again later. Error: "

/-- Result of `generate_answer` (lines 186-244): the LLM text, or — for
any exception inside the function — an apology carrying the error text;
the exception itself is never propagated. -/
def generate_answer (message : String) (data : Json)
    (conversation_history : List HistEntry) (call : LLMCall) : String :=
  match call with
  | .reply c => c
  | .fail e => answer_error_text ++ e

/-- Per-source step of `format_data_for_llm` (lines 161-183): each
response object contributes its `data` field (default `{}`); a non-dict
response raises. -/
def formatSources : List (String × Json) → Except String (List (String × Json))
  | [] => .ok []
  | (k, v) :: rest =>
    match v with
    | .obj fields => do
        let tail ← formatSources rest
        .ok ((k, (lookupField fields "data").getD (.obj [])) :: tail)
    | _ => .error "AttributeError: get on non-dict"

/-- `format_data_for_llm`: iterates `responses.items()`; a non-dict
`responses` raises. -/
def format_data_for_llm (responses : Json) : Except String Json :=
  match responses with
  | .obj fields => (formatSources fields).map .obj
  | _ => .error "AttributeError: items on non-dict"

/-- One item of the `StudentQueryResponses` table written by
`store_response`. -/
structure RespItem where
  correlationId : String
  userId : String
  timestamp : Nat
  question : String
  answer : String
  status : String
deriving DecidableEq

/-- Write of `store_response` (lines 313-342): a `put_item` exception is
logged and RE-RAISED, modelled by the `Except.error` return. -/
def store_response (now : Nat) (correlation_id user_id question answer : String)
    (put : PutResult) : Except String RespItem :=
  match put with
  | .ok => .ok ⟨correlation_id, user_id, now, question, answer, "complete"⟩
  | .fail e => .error e

/-- Item written by `store_conversation_history` (lines 355-368):
`ExpirationTime` is 15 minutes after the write instant. -/
def mkConvItem (now : Nat) (user_id correlation_id question answer : String) : ConvItem :=
  ⟨user_id, correlation_id, now, now + 15 * 60, question, answer⟩

/-- Write of `store_conversation_history` (lines 345-375), identical to
the LLMQueryAnalyzer version: on failure it logs and RE-RAISES. -/
def store_conversation_history (now : Nat) (user_id correlation_id question answer : String)
    (put : PutResult) : Except String ConvItem :=
  match put with
  | .ok => .ok (mkConvItem now user_id correlation_id question answer)
  | .fail e => .error e

/-- Environment of one Answer Generator invocation. -/
structure Env where
  genCall : LLMCall
  putResponse : PutResult
  putConversation : PutResult
  histReadFail : Bool
  table : List ConvItem
  now : Nat

/-- The 500 response built by the handler's top-level `except` clause. -/
def handlerError (e : String) : LambdaResponse :=
  ⟨500, .obj [("message", .str ("An error occurred in the Answer Generator: " ++ e)),
              ("status", .str "error")]⟩

/-- Control flow of `lambda_handler` (lines 49-113): parameter check,
history read, data formatting, answer generation, then the two writes —
`store_response` first, `store_conversation_history` second — NEITHER
wrapped in a `try`, so either write raising reaches the top-level
`except` and the handler returns a 500 error instead of the answer. -/
def lambda_handler (env : Env) (correlation_id user_id message : String)
    (responses : Json) : LambdaResponse :=
  if correlation_id == "" || user_id == "" || message == "" || !responses.truthy then
    ⟨400, .obj [("message", .str "Missing required data in event"), ("status", .str "error")]⟩
  else
    let conversation_history := get_conversation_history env.table user_id 5 env.histReadFail
    match format_data_for_llm responses with
    | .error e => handlerError e
    | .ok formatted_data =>
      let final_answer := generate_answer message formatted_data conversation_history env.genCall
      match store_response env.now correlation_id user_id message final_answer env.putResponse with
      | .error e => handlerError e
      | .ok _ =>
        match store_conversation_history env.now user_id correlation_id message final_answer
            env.putConversation with
        | .error e => handlerError e
        | .ok _ =>
          ⟨200, .obj [("correlationId", .str correlation_id), ("message", .str final_answer),
                      ("status", .str "complete")]⟩

end AnswerGenerator

/-- Tables reachable from empty by the two store operations: every write
goes through `putItem` with an item built by one of the two
`store_conversation_history` implementations at its own write instant. -/
inductive ReachableTable : List ConvItem → Prop where
  | nil : ReachableTable []
  | putLQA (tbl : List ConvItem) (now : Nat) (uid cid q a : String) :
      ReachableTable tbl →
      ReachableTable (putItem tbl (LLMQueryAnalyzer.mkConvItem now uid cid q a))
  | putAG (tbl : List ConvItem) (now : Nat) (uid cid q a : String) :
      ReachableTable tbl →
      ReachableTable (putItem tbl (AnswerGenerator.mkConvItem now uid cid q a))

/-- Boolean test that `pat` is a leading segment of `text`. -/
def startsWithChars : List Char → List Char → Bool
  | [], _ => true
  | _ :: _, [] => false
  | p :: ps, t :: ts => p == t && startsWithChars ps ts

/-- Boolean test that `pat` occurs contiguously inside the second list. -/
def hasSubChars (pat : List Char) : List Char → Bool
  | [] => pat.isEmpty
  | t :: ts => startsWithChars pat (t :: ts) || hasSubChars pat ts

/-- Boolean substring test on strings, for stating that a fallback message
does or does not quote the original question. -/
def strHasSub (s pat : String) : Bool := hasSubChars pat.data s.data

/-- A classifier reply marking the message as a genuine data query. -/
def notSmallTalkReply : Json :=
  .obj [("isSmallTalk", .bool false), ("response", .str ""),
        ("explanation", .str "needs student data")]

/-- Environment where the query-analysis capability returns unparseable
text. -/
def envC1 : LLMQueryAnalyzer.Env :=
  ⟨.reply notSmallTalkReply, .malformed, .reply "a direct answer", .ok, .ok, false, [], 0⟩

/-- Environment where the query-analysis capability call raises. -/
def envC1fail : LLMQueryAnalyzer.Env :=
  ⟨.reply notSmallTalkReply, .fail "timeout", .reply "a direct answer", .ok, .ok, false, [], 0⟩

/-- C1: on query-analysis parse failure or capability failure the fallback
dicts of `analyze_query` carry no `requiredWorkers` key at all, so the
caller's `query_analysis.get` yields the empty default and the handler
takes the no-workers direct-answer path (status 200, `requiresWorkers`
false) instead of dispatching workers — contradicting the documented
non-empty default requirement set. -/
theorem analyze_query_fallback_lacks_required_workers :
    (LLMQueryAnalyzer.analyze_query .malformed).getField "requiredWorkers" = none
  ∧ (LLMQueryAnalyzer.analyze_query (.fail "timeout")).getField "requiredWorkers" = none
  ∧ (LLMQueryAnalyzer.lambda_handler envC1 "c-1" "u-1" "What is my GPA?").statusCode = 200
  ∧ (LLMQueryAnalyzer.lambda_handler envC1 "c-1" "u-1" "What is my GPA?").body.getField
      "requiresWorkers" = some (.bool false)
  ∧ (LLMQueryAnalyzer.lambda_handler envC1fail "c-1" "u-1" "What is my GPA?").statusCode = 200
  ∧ (LLMQueryAnalyzer.lambda_handler envC1fail "c-1" "u-1" "What is my GPA?").body.getField
      "message" = some (.str "a direct answer") :=
  ⟨rfl, rfl, rfl, rfl, rfl, rfl⟩

/-- An aggregated-responses event payload with one worker result. -/
def respC2 : Json :=
  .obj [("GetStudentCourses", .obj [("data", .obj [("gpa", .str "3.8")])])]

/-- Environment where only the conversation-memory write fails. -/
def envC2conv : AnswerGenerator.Env := ⟨.reply "Your GPA is 3.8", .ok, .fail "boom", false, [], 0⟩

/-- Environment where only the final-answer persistence write fails. -/
def envC2resp : AnswerGenerator.Env :=
  ⟨.reply "Your GPA is 3.8", .fail "disk full", .ok, false, [], 0⟩

/-- Environment where both writes succeed. -/
def envC2ok : AnswerGenerator.Env := ⟨.reply "Your GPA is 3.8", .ok, .ok, false, [], 0⟩

/-- C2: with a final answer produced, a conversation-memory write failure
makes the Answer Generator handler return a 500 error body instead of the
answer, and a final-answer persistence failure does the same (it also
prevents the conversation write from running at all); only the all-success
run returns 200 with the answer. -/
theorem answer_generator_store_failures_fail_turn :
    (AnswerGenerator.lambda_handler envC2conv "c-2" "u-2" "What is my GPA?" respC2).statusCode = 500
  ∧ (AnswerGenerator.lambda_handler envC2conv "c-2" "u-2" "What is my GPA?" respC2).body.getField
      "message" = some (.str "An error occurred in the Answer Generator: boom")
  ∧ (AnswerGenerator.lambda_handler envC2resp "c-2" "u-2" "What is my GPA?" respC2).statusCode = 500
  ∧ (AnswerGenerator.lambda_handler envC2ok "c-2" "u-2" "What is my GPA?" respC2).statusCode = 200
  ∧ (AnswerGenerator.lambda_handler envC2ok "c-2" "u-2" "What is my GPA?" respC2).body.getField
      "message" = some (.str "Your GPA is 3.8") :=
  ⟨rfl, rfl, rfl, rfl, rfl⟩

/-- Environment where the classifier capability returns the well-formed
JSON value `{}`, which lacks every expected field. -/
def envC3 : LLMQueryAnalyzer.Env :=
  ⟨.reply (.obj []), .malformed, .reply "x", .ok, .ok, false, [], 0⟩

/-- C3 counterexample: the well-formed JSON value `{}` passes
`check_for_small_talk` unchanged — it is not routed to the fallback
constructor although it lacks the expected fields — and the caller's
unchecked `small_talk_response[isSmallTalk]` access then fails the turn
with a 500 response. -/
theorem check_small_talk_passes_unvalidated_json :
    LLMQueryAnalyzer.check_for_small_talk (.reply (.obj [])) = .obj []
  ∧ ((Json.obj []).getField "isSmallTalk").isSome = false
  ∧ (LLMQueryAnalyzer.small_talk_parse_fallback.getField "isSmallTalk").isSome = true
  ∧ (LLMQueryAnalyzer.lambda_handler envC3 "c-3" "u-3" "hello").statusCode = 500 :=
  ⟨rfl, rfl, rfl, rfl⟩

/-- C3 amended: only a JSON-decode failure or a raised capability call
routes to the documented fallback constructors; every successfully parsed
value — whatever its shape — is returned without schema validation, and
the caller's unchecked field access on such a value (here `[1]`) fails the
turn with a 500 response. -/
theorem check_small_talk_validation_boundary (v : Json) (e : String) :
    LLMQueryAnalyzer.check_for_small_talk (.reply v) = v
  ∧ LLMQueryAnalyzer.check_for_small_talk .malformed = LLMQueryAnalyzer.small_talk_parse_fallback
  ∧ LLMQueryAnalyzer.check_for_small_talk (.fail e) = LLMQueryAnalyzer.small_talk_error_fallback e
  ∧ (LLMQueryAnalyzer.lambda_handler
      ⟨.reply (.arr [.num 1]), .malformed, .reply "x", .ok, .ok, false, [], 0⟩
      "c-3b" "u-3b" "hi").statusCode = 500 :=
  ⟨rfl, rfl, rfl, rfl⟩

/-- C4 counterexample: on unparseable classifier output the fallback's
`explanation` field is the fixed string `Failed to parse response`, not
the empty string the claim asserts. -/
theorem small_talk_parse_fallback_explanation_not_empty :
    (LLMQueryAnalyzer.check_for_small_talk .malformed).getField "explanation"
      = some (.str "Failed to parse response")
  ∧ "Failed to parse response" ≠ "" :=
  ⟨rfl, by decide⟩

/-- C4 amended: on JSON parse failure `check_for_small_talk` returns
`isSmallTalk = false` with an empty `response` and the fixed non-empty
explanation `Failed to parse response`; on a raised capability call it
returns `isSmallTalk = false` with an empty `response` and explanation
`Error: ` followed by the error text — so both failure modes classify as
needs-analysis without crashing, but neither carries an empty
explanation, and well-formed JSON lacking the strict fields is not routed
to this fallback at all. -/
theorem small_talk_failure_fallbacks (e : String) :
    LLMQueryAnalyzer.check_for_small_talk .malformed = LLMQueryAnalyzer.small_talk_parse_fallback
  ∧ LLMQueryAnalyzer.small_talk_parse_fallback.getField "isSmallTalk" = some (.bool false)
  ∧ LLMQueryAnalyzer.small_talk_parse_fallback.getField "response" = some (.str "")
  ∧ LLMQueryAnalyzer.check_for_small_talk (.fail e) = LLMQueryAnalyzer.small_talk_error_fallback e
  ∧ (LLMQueryAnalyzer.small_talk_error_fallback e).getField "isSmallTalk" = some (.bool false)
  ∧ (LLMQueryAnalyzer.small_talk_error_fallback e).getField "response" = some (.str "")
  ∧ (LLMQueryAnalyzer.small_talk_error_fallback e).getField "explanation"
      = some (.str ("Error: " ++ e)) :=
  ⟨rfl, rfl, rfl, rfl, rfl, rfl, rfl⟩

/-- C5 counterexample: both `store_conversation_history` implementations
re-raise a storage failure to their caller instead of swallowing it. -/
theorem store_conversation_history_raises :
    LLMQueryAnalyzer.store_conversation_history 0 "u-5" "c-5" "q-5" "a-5" (.fail "boom")
      = .error "boom"
  ∧ AnswerGenerator.store_conversation_history 0 "u-5" "c-5" "q-5" "a-5" (.fail "boom")
      = .error "boom" :=
  ⟨rfl, rfl⟩

/-- C5 amended: the conversation-memory append logs and RE-RAISES storage
failures; the swallowing happens only at its call sites inside the
LLMQueryAnalyzer handler, whose response is therefore unaffected by
either write outcome (the AnswerGenerator call sites do not catch, see
the C2 analysis). -/
theorem store_failures_reraise_and_lqa_swallows
    (now : Nat) (uid cid q a e : String) (st aq : JsonCall) (dc : LLMCall)
    (p p' : PutResult) (hf : Bool) (tbl : List ConvItem) (n : Nat) (c u m : String) :
    LLMQueryAnalyzer.store_conversation_history now uid cid q a (.fail e) = .error e
  ∧ AnswerGenerator.store_conversation_history now uid cid q a (.fail e) = .error e
  ∧ LLMQueryAnalyzer.lambda_handler ⟨st, aq, dc, p, p', hf, tbl, n⟩ c u m
      = LLMQueryAnalyzer.lambda_handler ⟨st, aq, dc, .ok, .ok, hf, tbl, n⟩ c u m :=
  ⟨rfl, rfl, rfl⟩

/-- Two turns of one user whose range-key order disagrees with their
creation order. -/
def lqaTblC6 : List ConvItem :=
  [⟨"u-6", "b", 1, 901, "q1", "a1"⟩, ⟨"u-6", "a", 2, 902, "q2", "a2"⟩]

/-- Five turns of one user, creation times 1..5. -/
def agTblC6 : List ConvItem :=
  [⟨"u-6g", "c1", 1, 901, "q1", "a1"⟩, ⟨"u-6g", "c2", 2, 902, "q2", "a2"⟩,
   ⟨"u-6g", "c3", 3, 903, "q3", "a3"⟩, ⟨"u-6g", "c4", 4, 904, "q4", "a4"⟩,
   ⟨"u-6g", "c5", 5, 905, "q5", "a5"⟩]

/-- C6: the LLMQueryAnalyzer read returns the partition in ascending
`CorrelationId` order — here newest creation time first — and the
AnswerGenerator pipeline fetches the newest `limit` turns newest-first
but then `format_conversation_history` keeps the OLDEST three of them,
rendered newest-to-oldest; neither hands prompt construction the most
recent turns ordered oldest-to-newest. -/
theorem conversation_history_selection_and_order :
    LLMQueryAnalyzer.get_conversation_history lqaTblC6 "u-6" false
      = [⟨"q2", "a2", 2⟩, ⟨"q1", "a1", 1⟩]
  ∧ AnswerGenerator.get_conversation_history agTblC6 "u-6g" 5 false
      = [⟨"q5", "a5", 5⟩, ⟨"q4", "a4", 4⟩, ⟨"q3", "a3", 3⟩, ⟨"q2", "a2", 2⟩, ⟨"q1", "a1", 1⟩]
  ∧ AnswerGenerator.format_conversation_history
      [⟨"q5", "a5", 5⟩, ⟨"q4", "a4", 4⟩, ⟨"q3", "a3", 3⟩, ⟨"q2", "a2", 2⟩, ⟨"q1", "a1", 1⟩] 3
      = "Student: q3\nAssistant: a3\n\nStudent: q2\nAssistant: a2\n\nStudent: q1\nAssistant: a1" :=
  ⟨by decide, by decide, by decide⟩

/-- An aggregated-responses payload with one empty worker result. -/
def respC7 : Json := .obj [("GetStudentData", .obj [("data", .obj [])])]

/-- C7 counterexample: the Answer Generator fallback string is not fixed —
it varies with the raised error — and neither it nor the
LLMQueryAnalyzer direct-answer apology quotes the original question. -/
theorem generate_answer_fallback_not_fixed_no_question :
    AnswerGenerator.generate_answer "What is my GPA?" (.obj []) [] (.fail "A")
      ≠ AnswerGenerator.generate_answer "What is my GPA?" (.obj []) [] (.fail "B")
  ∧ strHasSub (AnswerGenerator.generate_answer "What is my GPA?" (.obj []) [] (.fail "boom"))
      "What is my GPA?" = false
  ∧ strHasSub (LLMQueryAnalyzer.get_direct_answer "What is my GPA?" [] (.fail "boom"))
      "What is my GPA?" = false :=
  ⟨by decide, by decide, by decide⟩

/-- C7 amended: on capability failure the Answer Generator returns an
apologetic fallback consisting of a fixed prefix followed by the error
text (not quoting the question), the LLMQueryAnalyzer direct-answer path
returns its fixed apology, and the raw exception is never propagated —
the handler still answers 200 with the fallback as its message. -/
theorem capability_failure_yields_apology_not_exception
    (m : String) (d : Json) (h : List HistEntry) (e : String) :
    AnswerGenerator.generate_answer m d h (.fail e) = AnswerGenerator.answer_error_text ++ e
  ∧ LLMQueryAnalyzer.get_direct_answer m h (.fail e) = LLMQueryAnalyzer.direct_answer_apology
  ∧ (AnswerGenerator.lambda_handler ⟨.fail e, .ok, .ok, false, [], 0⟩
      "c-7" "u-7" "m-7" respC7).statusCode = 200
  ∧ (AnswerGenerator.lambda_handler ⟨.fail e, .ok, .ok, false, [], 0⟩
      "c-7" "u-7" "m-7" respC7).body.getField "message"
      = some (.str (AnswerGenerator.answer_error_text ++ e)) :=
  ⟨rfl, rfl, rfl, rfl⟩

/-- A conversation record whose expiry (100) lies before the read instant
(200) used in the statement below. -/
def expiredItem : ConvItem := ⟨"u-8", "c-8", 1, 100, "q-8", "a-8"⟩

/-- C8 counterexample: a record whose `ExpirationTime` 100 has passed by
read time 200 is still returned by both reads — neither filters on
expiry, and neither even consults the clock. -/
theorem expired_record_still_returned :
    LLMQueryAnalyzer.get_conversation_history [expiredItem] "u-8" false = [⟨"q-8", "a-8", 1⟩]
  ∧ AnswerGenerator.get_conversation_history [expiredItem] "u-8" 5 false = [⟨"q-8", "a-8", 1⟩]
  ∧ expiredItem.expirationTime ≤ 200
  ∧ ([⟨"q-8", "a-8", 1⟩] : List HistEntry) ≠ [] :=
  ⟨rfl, rfl, by decide, by decide⟩

/-- C8 amended: both reads return the empty sequence on any retrieval
failure, but they apply no expiry filter — a stored record is returned
whatever its `ExpirationTime`, until the storage layer's asynchronous TTL
deletion removes it. -/
theorem recent_turns_error_empty_no_expiry_filter
    (tbl : List ConvItem) (uid : String) (lim : Nat) (it : ConvItem) :
    LLMQueryAnalyzer.get_conversation_history tbl uid true = []
  ∧ AnswerGenerator.get_conversation_history tbl uid lim true = []
  ∧ LLMQueryAnalyzer.get_conversation_history [it] it.userId false = [histEntryOf it] :=
  ⟨rfl, rfl, by
    simp [LLMQueryAnalyzer.get_conversation_history, sortBy, insertBy, histEntryOf]⟩

/-- C9: both classification prompt builders ignore the conversation
history entirely — the source hard-codes `recent_history = None` with a
`#TEMP` marker — so the classification input is the system message plus
the bare current message for every history. -/
theorem classification_prompts_ignore_history
    (sysMsg m : String) (h1 h2 : List HistEntry) :
    LLMQueryAnalyzer.small_talk_messages sysMsg m h1
      = LLMQueryAnalyzer.small_talk_messages sysMsg m h2
  ∧ LLMQueryAnalyzer.small_talk_messages sysMsg m h1 = [.system sysMsg, .human m]
  ∧ LLMQueryAnalyzer.analyze_query_messages sysMsg m h1
      = LLMQueryAnalyzer.analyze_query_messages sysMsg m h2
  ∧ LLMQueryAnalyzer.analyze_query_messages sysMsg m h1 = [.system sysMsg, .human m] :=
  ⟨rfl, rfl, rfl, rfl⟩

/-- C10: in every table reachable by the two store operations, each record
carries an expiry of exactly 15 minutes (900 seconds) after its own write
instant, set at write time and never renewed or mutated by later writes. -/
theorem conversation_record_expiry_fifteen_minutes
    (tbl : List ConvItem) (hr : ReachableTable tbl) :
    ∀ it ∈ tbl, it.expirationTime = it.timestamp + 15 * 60 := by
  induction hr with
  | nil => intro it h; cases h
  | putLQA tbl now uid cid q a hprev ih =>
    intro it hmem
    rcases List.mem_cons.mp hmem with h | h
    · subst h; rfl
    · exact ih it (List.mem_of_mem_filter h)
  | putAG tbl now uid cid q a hprev ih =>
    intro it hmem
    rcases List.mem_cons.mp hmem with h | h
    · subst h; rfl
    · exact ih it (List.mem_of_mem_filter h)

/-- A table reached by one LLMQueryAnalyzer write and one AnswerGenerator
write. -/
def tblC10 : List ConvItem :=
  putItem (putItem [] (LLMQueryAnalyzer.mkConvItem 10 "u-10" "c-a" "q1" "a1"))
    (AnswerGenerator.mkConvItem 70 "u-10" "c-b" "q2" "a2")

/-- C10 witness: the expiry invariant holds on a concrete reachable
table. -/
theorem conversation_record_expiry_fifteen_minutes_witness :
    ReachableTable tblC10 ∧ ∀ it ∈ tblC10, it.expirationTime = it.timestamp + 15 * 60 :=
  ⟨ReachableTable.putAG _ 70 "u-10" "c-b" "q2" "a2"
      (ReachableTable.putLQA _ 10 "u-10" "c-a" "q1" "a1" ReachableTable.nil),
   conversation_record_expiry_fifteen_minutes tblC10
      (ReachableTable.putAG _ 70 "u-10" "c-b" "q2" "a2"
        (ReachableTable.putLQA _ 10 "u-10" "c-a" "q1" "a1" ReachableTable.nil))⟩

